import Mathlib

/-!
Verification development for the openclaw KOOK channel extension.

The definitions below are a shallow embedding of
`src/extensions/kook/src/kook/probe.ts` (the gateway monitor:
`connectWebSocket`, `scheduleReconnect`, `fetchBotId`) and
`src/extensions/kook/src/bot.ts` (`handleKookMessage`, `isGroupAllowed`,
`isDmAllowed`, `checkBotMentioned`, `stripBotMention`, `extractContent`),
together with the config shapes from `channel.ts` / `config-schema.ts`.
JavaScript strings become `String`, numbers become `Int`/`Nat`,
`undefined`-able values become `Option`, and the callback-driven
WebSocket session becomes an explicit step function on a session-state
record.
-/

namespace Kook

/-- JavaScript truthiness of a `string | undefined` value:
`undefined` and the empty string are falsy. -/
def jsTruthy : Option String → Bool
  | none => false
  | some s => !(s == "")

/-- `event.channel_type` of a raw KOOK event (`types.ts`). -/
inductive ChannelType
  | GROUP
  | PERSON
  | BROADCAST
  deriving DecidableEq, Repr

/-- Raw KOOK event payload (signal 0), `KookEventData` in `types.ts`.
The nested `extra` fields consumed by the code are flattened:
`mention` is `extra.mention ?? []`, `guild_id` is `extra.guild_id`,
`author_username` is `extra.author?.username`, `quote_content` is
`extra.quote?.content`, `kmarkdown_raw` is `extra.kmarkdown?.raw_content`. -/
structure KookEventData where
  channel_type : ChannelType
  type : Int
  target_id : String
  author_id : String
  content : String
  msg_id : String
  mention : List String
  guild_id : Option String
  author_username : Option String
  quote_content : Option String
  kmarkdown_raw : Option String
  deriving DecidableEq, Repr

/-- A decoded gateway signal frame `{s, d, sn?}` (`KookSignalFrame`).
`d` is a dynamic map in the source; we carry the two reads the session
performs on it: `d.session_id` (signals 1 and 6) and the cast of `d`
to `KookEventData` (signal 0). -/
structure KookSignalFrame where
  s : Int
  dSessionId : Option String
  dEvent : KookEventData
  sn : Option Int
  deriving DecidableEq, Repr

/-- `HEARTBEAT_INTERVAL_MS` in `probe.ts`. -/
def HEARTBEAT_INTERVAL_MS : Nat := 30000

/-- `HELLO_TIMEOUT_MS` in `probe.ts`. -/
def HELLO_TIMEOUT_MS : Nat := 6000

/-- `RECONNECT_BASE_MS` in `probe.ts`. -/
def RECONNECT_BASE_MS : Nat := 2000

/-- `MAX_RECONNECT_WAIT_MS` in `probe.ts`. -/
def MAX_RECONNECT_WAIT_MS : Nat := 60000

/-- The mutable state of one `connectWebSocket` run: the closure
variables `sn`, `sessionId`, `reconnectAttempt`, and per-connection
`heartbeatTimer`, `helloTimer`, `resolved`, together with observables
of the run: whether the socket is open, whether the abort signal has
fired, whether a backoff reconnect has been scheduled, whether the
promise resolved successfully, and how many events were handed to
`handleKookMessage`. -/
structure SessionState where
  sn : Int
  sessionId : String
  reconnectAttempt : Nat
  helloTimer : Bool
  heartbeatTimer : Bool
  socketOpen : Bool
  aborted : Bool
  resolved : Bool
  resolvedSuccess : Bool
  reconnectScheduled : Bool
  dispatchCount : Nat
  deriving DecidableEq, Repr

/-- The fresh state of a `connectWebSocket` run after the socket object
is created: counters zero, session id empty, no timers armed. -/
def initialSessionState : SessionState :=
  { sn := 0
    sessionId := ""
    reconnectAttempt := 0
    helloTimer := true
    heartbeatTimer := false
    socketOpen := false
    aborted := false
    resolved := false
    resolvedSuccess := false
    reconnectScheduled := false
    dispatchCount := 0 }

/-- The admission test of the signal-0 branch of `connectWebSocket`:
skip self-echo (`botId && eventData.author_id === botId`), skip system
events (`type === 255`), skip anything but text-like types 1/9/10. -/
def admitEvent (botId : Option String) (e : KookEventData) : Bool :=
  if jsTruthy botId && (e.author_id == botId.getD "") then false
  else if e.type == 255 then false
  else if e.type != 1 && e.type != 9 && e.type != 10 then false
  else true

/-- The `cleanup` helper of `connectWebSocket`: defuse both timers and
close the socket. -/
def cleanup (st : SessionState) : SessionState :=
  { st with heartbeatTimer := false, helloTimer := false, socketOpen := false }

/-- The `message` listener of `connectWebSocket`: one decoded frame is
dispatched on `frame.s` exactly as the `switch` does. -/
def stepFrame (botId : Option String) (st : SessionState) (f : KookSignalFrame) :
    SessionState :=
  if f.s == 1 then
    -- Hello: cancel the hello timer, store session_id, start heartbeat
    { st with helloTimer := false
              sessionId := f.dSessionId.getD st.sessionId
              heartbeatTimer := true }
  else if f.s == 0 then
    -- Event dispatch: track sn, then run the admission pipeline
    let st := { st with sn := f.sn.getD st.sn }
    if admitEvent botId f.dEvent then
      { st with dispatchCount := st.dispatchCount + 1 }
    else st
  else if f.s == 3 then
    -- Pong: no-op
    st
  else if f.s == 5 then
    -- Server reconnect request: full reset then backoff reconnect
    let st := cleanup { st with sn := 0, sessionId := "" }
    if !st.resolved then
      { st with resolved := true, reconnectScheduled := !st.aborted }
    else st
  else if f.s == 6 then
    -- Resume ACK: refresh session_id
    { st with sessionId := f.dSessionId.getD st.sessionId }
  else st

/-- The `open` listener of `connectWebSocket`: the socket connected, and
`reconnectAttempt` is reset to zero. -/
def stepOpen (st : SessionState) : SessionState :=
  { st with socketOpen := true, reconnectAttempt := 0 }

/-- The hello-timeout callback: cleanup, then schedule a backoff
reconnect if the promise is still pending. -/
def stepHelloTimeout (st : SessionState) : SessionState :=
  let st := cleanup st
  if !st.resolved then
    { st with resolved := true, reconnectScheduled := !st.aborted }
  else st

/-- The `close` listener: cleanup, then either schedule a backoff
reconnect (not resolved, not aborted) or resolve successfully. -/
def stepClose (st : SessionState) : SessionState :=
  let st := cleanup st
  if !st.resolved && !st.aborted then
    { st with resolved := true, reconnectScheduled := true }
  else if !st.resolved then
    { st with resolved := true, resolvedSuccess := true }
  else st

/-- The `handleAbort` listener: the external abort signal fired; defuse
timers, close the socket, and resolve the promise successfully. -/
def handleAbort (st : SessionState) : SessionState :=
  let st := cleanup { st with aborted := true }
  if !st.resolved then
    { st with resolved := true, resolvedSuccess := true }
  else st

/-- The heartbeat ticker body: every tick sends `{s: 2, sn}` with the
current stored sequence number. -/
def heartbeatPayload (st : SessionState) : Int × Int :=
  (2, st.sn)

/-- The wait computed by `scheduleReconnect` once `reconnectAttempt` has
been incremented to `n`:
`Math.min(RECONNECT_BASE_MS * 2 ** (n - 1), MAX_RECONNECT_WAIT_MS)`. -/
def backoffWait (n : Nat) : Nat :=
  min (RECONNECT_BASE_MS * 2 ^ (n - 1)) MAX_RECONNECT_WAIT_MS

/-- Observable actions of the reconnect/connect control flow. -/
inductive ConnStep
  | waitTick (ms : Nat)
  | fetchGateway
  | openSocket
  deriving DecidableEq, Repr

/-- The action sequence of one `connect()` call: nothing when the abort
signal has fired, otherwise fetch the gateway URL, then open the
WebSocket to the fetched URL. -/
def connectSteps (aborted : Bool) : List ConnStep :=
  if aborted then []
  else [ConnStep.fetchGateway, ConnStep.openSocket]

/-- The action sequence of one `scheduleReconnect()` call, with
`attemptBefore` the value of `reconnectAttempt` at entry: nothing when
aborted, otherwise increment the attempt, wait the backoff, and run
`connect()`. -/
def scheduleReconnectSteps (aborted : Bool) (attemptBefore : Nat) : List ConnStep :=
  if aborted then []
  else ConnStep.waitTick (backoffWait (attemptBefore + 1)) :: connectSteps aborted

/-- Fold a list of inbound frames through the message listener. -/
def runFrames (botId : Option String) (st : SessionState)
    (fs : List KookSignalFrame) : SessionState :=
  fs.foldl (stepFrame botId) st

/-! ### Config shapes (`channel.ts` configSchema / `config-schema.ts`) -/

/-- An allow-list entry is `string | number` in the config schema; the
gate functions compare `String(entry)`. -/
inductive AllowEntry
  | str (s : String)
  | num (n : Int)
  deriving DecidableEq, Repr

/-- JavaScript `String(entry)` on an allow-list entry. -/
def entryToString : AllowEntry → String
  | AllowEntry.str s => s
  | AllowEntry.num n => toString n

/-- One value of the `groups` record. The schema (`channel.ts` lines
78-88, `config-schema.ts`) declares only `enabled`, `requireMention`
and `allowFrom`; `rawGroupPolicy` stands for a per-channel
`groupPolicy` key a raw config file could carry (the JSON schema for
group entries does not set `additionalProperties: false`), which no
code path ever reads. -/
structure GroupEntry where
  enabled : Option Bool := none
  requireMention : Option Bool := none
  allowFrom : Option (List AllowEntry) := none
  rawGroupPolicy : Option String := none
  deriving DecidableEq, Repr

/-- The merged per-account KOOK config view (`account.config`), with the
fields `handleKookMessage` reads. -/
structure KookConfig where
  groupPolicy : Option String := none
  groupAllowFrom : Option (List AllowEntry) := none
  requireMention : Option Bool := none
  dmPolicy : Option String := none
  allowFrom : Option (List AllowEntry) := none
  groups : Option (List (String × GroupEntry)) := none
  deriving DecidableEq, Repr

/-- Record access `groups?.[key]` on the (associative-list) record. -/
def groupsLookup (groups : Option (List (String × GroupEntry))) (key : String) :
    Option GroupEntry :=
  match groups with
  | none => none
  | some gs => gs.lookup key

/-! ### Pending history buffer

`recordPendingHistoryEntryIfEnabled`, `buildPendingHistoryContextFromMap`
and `clearHistoryEntriesIfEnabled` live in `openclaw/plugin-sdk`, which
is not under `src/`; they are modelled from the spec (sections 3 and
4.6). -/

/-- A pending-history entry (spec section 3: HistoryEntry). The source
stores `{sender, body, timestamp, messageId}`. -/
structure HistoryEntry where
  sender : String
  body : String
  timestamp : Nat
  messageId : String
  deriving DecidableEq, Repr

/-- The per-channel history map (`chatHistories` in `connectWebSocket`),
as an associative list keyed by channel id. -/
def HistMap : Type := List (String × List HistoryEntry)

instance : DecidableEq HistMap := by
  unfold HistMap
  infer_instance

/-- Read a channel's buffer (missing key reads as empty). -/
def histGet (m : HistMap) (key : String) : List HistoryEntry :=
  (m.lookup key).getD []

/-- Replace a channel's buffer. -/
def histSet (m : HistMap) (key : String) (v : List HistoryEntry) : HistMap :=
  (key, v) :: m.filter (fun p => p.1 != key)

/-- The last `n` elements of a list. -/
def takeLast (n : Nat) (l : List HistoryEntry) : List HistoryEntry :=
  l.drop (l.length - n)

/-- Modelled from the spec: `recordPendingHistoryEntryIfEnabled` of
`openclaw/plugin-sdk` (not under `src/`). Spec 4.6: unaddressed group
messages are appended to the per-channel bounded sequence, capacity =
the resolved history limit, oldest evicted first. -/
def recordPendingHistoryEntryIfEnabled (m : HistMap) (key : String)
    (limit : Nat) (e : HistoryEntry) : HistMap :=
  histSet m key (takeLast limit (histGet m key ++ [e]))

/-- Modelled from the spec: `buildPendingHistoryContextFromMap` of
`openclaw/plugin-sdk` (not under `src/`). Spec 4.6: the channel's
buffered entries are formatted and prepended as context ahead of the
addressed message; the buffer itself is not mutated. -/
def buildPendingHistoryContextFromMap (m : HistMap) (key : String)
    (limit : Nat) (fmt : HistoryEntry → String) (current : String) : String :=
  String.intercalate "\n\n" ((takeLast limit (histGet m key)).map fmt ++ [current])

/-- Modelled from the spec: `clearHistoryEntriesIfEnabled` of
`openclaw/plugin-sdk` (not under `src/`). Spec 4.6: the channel's
buffer is cleared after a successful downstream dispatch. -/
def clearHistoryEntriesIfEnabled (m : HistMap) (key : String)
    (_limit : Nat) : HistMap :=
  histSet m key []

/-! ### Message-handling helpers (`bot.ts`) -/

/-- `extractContent` of `bot.ts`: KMarkdown messages (type 9) prefer a
truthy `extra.kmarkdown.raw_content`; otherwise the raw `content`. -/
def extractContent (e : KookEventData) : String :=
  if e.type == 9 && jsTruthy e.kmarkdown_raw then
    e.kmarkdown_raw.getD e.content
  else e.content

/-- `checkBotMentioned` of `bot.ts`: false for a falsy bot id, else
membership of the bot id in `extra.mention`. -/
def checkBotMentioned (e : KookEventData) (botId : Option String) : Bool :=
  if !jsTruthy botId then false
  else e.mention.contains (botId.getD "")

/-- Whether a character matches the JavaScript regex class backslash-s
(on the whitespace the code can meet). -/
def isJsSpace (c : Char) : Bool :=
  c == ' ' || c == '\t' || c == '\n' || c == '\r'

/-- Replace a completed whitespace run: runs of length at least two
collapse to one space, shorter runs are kept verbatim. -/
def flushRun (run : List Char) : List Char :=
  match run with
  | [] => []
  | [c] => [c]
  | _ => [' ']

/-- Left-to-right scan implementing the global regex replacement of
whitespace runs of length at least two by a single space. -/
def collapseRunsAux : List Char → List Char → List Char
  | run, [] => flushRun run
  | run, c :: cs =>
    if isJsSpace c then collapseRunsAux (run ++ [c]) cs
    else flushRun run ++ c :: collapseRunsAux [] cs

/-- `.replace(/\s{2,}/g, " ")` on a string. -/
def collapseSpaces (s : String) : String :=
  String.mk (collapseRunsAux [] s.data)

/-- `stripBotMention` of `bot.ts`: drop every `(met)botId(met)` token,
collapse whitespace runs, trim. A falsy bot id leaves the text as is. -/
def stripBotMention (text : String) (botId : Option String) : String :=
  if !jsTruthy botId then text
  else
    (collapseSpaces (text.replace ("(met)" ++ botId.getD "" ++ "(met)") "")).trim

/-- `isGroupAllowed` of `bot.ts`. -/
def isGroupAllowed (groupPolicy : String) (allowFrom : List AllowEntry)
    (guildId channelId : String) : Bool :=
  if groupPolicy == "disabled" then false
  else if groupPolicy == "open" then true
  else
    allowFrom.any (fun entry =>
      entryToString entry == guildId || entryToString entry == channelId)

/-- `isDmAllowed` of `bot.ts`. -/
def isDmAllowed (dmPolicy : String) (allowFrom : List AllowEntry)
    (senderId : String) : Bool :=
  if dmPolicy == "open" then true
  else if dmPolicy == "allowlist" then
    allowFrom.any (fun entry => entryToString entry == senderId)
  else true

/-! ### `handleKookMessage` (`bot.ts`) -/

/-- The effective group policy as `handleKookMessage` computes it
(line 117 of `bot.ts`): the account-merged value, defaulting to
"allowlist". -/
def effectiveGroupPolicy (kookCfg : KookConfig) : String :=
  kookCfg.groupPolicy.getD "allowlist"

/-- The per-group config lookup of `bot.ts` (line 133):
`kookCfg?.groups?.[channelId] ?? kookCfg?.groups?.[guildId ?? ""]`. -/
def groupConfigFor (kookCfg : KookConfig) (channelId : String)
    (guildId : Option String) : Option GroupEntry :=
  (groupsLookup kookCfg.groups channelId).orElse
    (fun _ => groupsLookup kookCfg.groups (guildId.getD ""))

/-- The mention requirement of `bot.ts` (line 139):
`groupConfig?.requireMention ?? kookCfg?.requireMention ?? true`. -/
def effectiveRequireMention (kookCfg : KookConfig)
    (groupConfig : Option GroupEntry) : Bool :=
  ((groupConfig.bind GroupEntry.requireMention).orElse
    (fun _ => kookCfg.requireMention)).getD true

/-- Outcome of one `handleKookMessage` call. -/
inductive HandleOutcome
  | droppedPolicy
  | droppedDisabled
  | recorded
  | dispatched (body : String)
  | dispatchFailed
  deriving DecidableEq, Repr

/-- The formatter handed to the pending-history builder (`bot.ts`
lines 232-239): each entry is wrapped by the envelope formatter with
`from = channelId:entry.sender` and the entry's own timestamp. -/
def historyEntryFormatter (fmtEnvelope : String → Nat → String → String)
    (channelId : String) : HistoryEntry → String :=
  fun entry => fmtEnvelope (channelId ++ ":" ++ entry.sender) entry.timestamp entry.body

/-- The envelope-formatted current message of the dispatch path
(`bot.ts` lines 197-221): optional quote prefix, speaker prefix, then
the envelope formatter with `from = channelId:senderId` for group
messages and `from = senderId` for DMs. `fmtEnvelope` abstracts the
opaque `formatAgentEnvelope` collaborator and `now` abstracts
`Date.now()`. -/
def dispatchCurrentBody (e : KookEventData) (botId : Option String)
    (fmtEnvelope : String → Nat → String → String) (now : Nat) : String :=
  let isGroup := e.channel_type == ChannelType.GROUP
  let content := stripBotMention (extractContent e) botId
  let messageBody :=
    if jsTruthy e.quote_content then
      "[Replying to: \"" ++ e.quote_content.getD "" ++ "\"]\n\n" ++ content
    else content
  let speaker := e.author_username.getD e.author_id
  let messageBody := speaker ++ ": " ++ messageBody
  let envelopeFrom :=
    if isGroup then e.target_id ++ ":" ++ e.author_id else e.author_id
  fmtEnvelope envelopeFrom now messageBody

/-- The dispatch path of `handleKookMessage` (`bot.ts` lines 171-299,
the `try` block): build the combined body (for group messages the
pending history is prepended), dispatch it, and clear the channel's
buffer only after the dispatch returned; a throwing dispatch is caught
at this boundary and leaves the buffer untouched. `dispatchOk`
abstracts whether `dispatchReplyFromConfig` succeeds. -/
def performDispatch (e : KookEventData) (botId : Option String)
    (chatHistories : HistMap) (historyLimit : Nat)
    (fmtEnvelope : String → Nat → String → String) (now : Nat)
    (dispatchOk : Bool) : HandleOutcome × HistMap :=
  let isGroup := e.channel_type == ChannelType.GROUP
  let channelId := e.target_id
  let body := dispatchCurrentBody e botId fmtEnvelope now
  -- `if (isGroup && historyKey && chatHistories)` with historyKey = channelId:
  -- the pending history is consulted only for group messages with a
  -- truthy channel id (the history map itself is always supplied).
  let useHistory := isGroup && channelId != ""
  let combinedBody :=
    if useHistory then
      buildPendingHistoryContextFromMap chatHistories channelId historyLimit
        (historyEntryFormatter fmtEnvelope channelId) body
    else body
  if dispatchOk then
    (HandleOutcome.dispatched combinedBody,
      if useHistory then clearHistoryEntriesIfEnabled chatHistories channelId historyLimit
      else chatHistories)
  else (HandleOutcome.dispatchFailed, chatHistories)

/-- `handleKookMessage` of `bot.ts` as a pure function from the merged
account config, the event, the cached bot id, the per-channel history
map and the resolved history limit
(`Math.max(0, cfg.messages?.groupChat?.historyLimit ?? DEFAULT_GROUP_HISTORY_LIMIT)`)
to an outcome and the updated history map. -/
def handleKookMessage (kookCfg : KookConfig) (e : KookEventData)
    (botId : Option String) (chatHistories : HistMap) (historyLimit : Nat)
    (fmtEnvelope : String → Nat → String → String) (now : Nat)
    (dispatchOk : Bool) : HandleOutcome × HistMap :=
  let isGroup := e.channel_type == ChannelType.GROUP
  let mentionedBot := checkBotMentioned e botId
  let content := stripBotMention (extractContent e) botId
  let senderId := e.author_id
  let channelId := e.target_id
  if isGroup then
    if !isGroupAllowed (effectiveGroupPolicy kookCfg)
        (kookCfg.groupAllowFrom.getD []) (e.guild_id.getD "") channelId then
      (HandleOutcome.droppedPolicy, chatHistories)
    else
      let groupConfig := groupConfigFor kookCfg channelId e.guild_id
      if (groupConfig.bind GroupEntry.enabled) == some false then
        (HandleOutcome.droppedDisabled, chatHistories)
      else if effectiveRequireMention kookCfg groupConfig && !mentionedBot then
        (HandleOutcome.recorded,
          recordPendingHistoryEntryIfEnabled chatHistories channelId historyLimit
            { sender := senderId
              body := (e.author_username.getD senderId) ++ ": " ++ content
              timestamp := now
              messageId := e.msg_id })
      else
        performDispatch e botId chatHistories historyLimit fmtEnvelope now dispatchOk
  else
    if !isDmAllowed (kookCfg.dmPolicy.getD "pairing")
        (kookCfg.allowFrom.getD []) senderId then
      (HandleOutcome.droppedPolicy, chatHistories)
    else
      performDispatch e botId chatHistories historyLimit fmtEnvelope now dispatchOk

/-- Modelled from the spec: the Account Resolver (`accounts.ts`, not
under `src/`) merges per-account overrides over top-level defaults
(`types.ts`: "Merged config (top-level defaults + account-specific
overrides)"); for `groupPolicy` the account-specific value wins when
present. -/
def mergeGroupPolicy (accountGroupPolicy topGroupPolicy : Option String) :
    Option String :=
  accountGroupPolicy.orElse (fun _ => topGroupPolicy)

/-- The override chain exactly as the spec (4.5) words it for the C4
comparison: a per-channel `groupPolicy`, when present, overrides the
per-account value, which overrides the global default "allowlist". -/
def specEffectiveGroupPolicy (kookCfg : KookConfig) (channelId : String)
    (guildId : Option String) : String :=
  (((groupConfigFor kookCfg channelId guildId).bind GroupEntry.rawGroupPolicy).orElse
    (fun _ => kookCfg.groupPolicy)).getD "allowlist"

/-! ### Concrete sample data used by counterexamples and witnesses -/

/-- The `/user/me` response consumed by `fetchBotId`: the API status
`code` and `data.id`. -/
structure KookApiUserResponse where
  code : Int
  dataId : String
  deriving DecidableEq, Repr

/-- `fetchBotId` of `probe.ts` (lines 345-352): the self-identity
probe. Its input is the outcome of `getBotInfo` — either a thrown
request error or a response; a throw or a non-zero status code yields
`undefined`, and `connectWebSocket` proceeds with that undefined bot
id rather than failing. -/
def fetchBotId (res : Except String KookApiUserResponse) : Option String :=
  match res with
  | Except.error _ => none
  | Except.ok r => if r.code == 0 then some r.dataId else none

/-- A concrete group event in channel `chan1` of guild `guild1`, sent
by `user1`, KMarkdown (type 9), mentioning nobody. -/
def sampleEvent : KookEventData :=
  { channel_type := ChannelType.GROUP
    type := 9
    target_id := "chan1"
    author_id := "user1"
    content := "hello"
    msg_id := "m1"
    mention := []
    guild_id := some "guild1"
    author_username := some "alice"
    quote_content := none
    kmarkdown_raw := none }

/-- A concrete Hello frame carrying a session id. -/
def sampleHelloFrame : KookSignalFrame :=
  { s := 1, dSessionId := some "sess1", dEvent := sampleEvent, sn := none }

/-- An Event frame with sequence number 5. -/
def eventFrameSn5 : KookSignalFrame :=
  { s := 0, dSessionId := none, dEvent := sampleEvent, sn := some 5 }

/-- An Event frame with sequence number 3. -/
def eventFrameSn3 : KookSignalFrame :=
  { s := 0, dSessionId := none, dEvent := sampleEvent, sn := some 3 }

end Kook

namespace Kook

/-! ### Helper lemmas -/

/-- On an Event (signal 0) frame, the stored sequence number becomes
the frame's `sn` when present and is otherwise unchanged. -/
theorem stepFrame_event_sn (botId : Option String) (st : SessionState)
    (f : KookSignalFrame) (h : f.s = 0) :
    (stepFrame botId st f).sn = f.sn.getD st.sn := by
  obtain ⟨s, sid, ev, osn⟩ := f
  simp only at h
  subst h
  unfold stepFrame
  simp only [show ((0 : Int) == 1) = false from rfl, show ((0 : Int) == 0) = true from rfl,
    Bool.false_eq_true, if_false, if_true]
  split <;> rfl

end Kook

namespace Kook

/-- C8: for every reconnect attempt `n ≥ 1` the wait before retrying is
`min(2000·2^(n-1), 60000)` ms; in closed form the cap engages from
attempt 6 on, and attempt 6 yields 60000; `scheduleReconnect` waits
exactly this long before reconnecting. -/
theorem reconnect_backoff_formula (n : Nat) (hn : 1 ≤ n) :
    backoffWait n = min (2000 * 2 ^ (n - 1)) 60000 ∧
    backoffWait n = (if n ≤ 5 then 2000 * 2 ^ (n - 1) else 60000) ∧
    backoffWait 6 = 60000 ∧
    (scheduleReconnectSteps false (n - 1)).head? =
      some (ConnStep.waitTick (backoffWait n)) := by
  refine ⟨rfl, ?_, by decide, ?_⟩
  · by_cases h : n ≤ 5
    · rw [if_pos h]
      interval_cases n <;> decide
    · rw [if_neg h]
      push_neg at h
      have h2 : 2 ^ 5 ≤ 2 ^ (n - 1) := Nat.pow_le_pow_right (by norm_num) (by omega)
      have h3 : 60000 ≤ 2000 * 2 ^ (n - 1) := by
        calc (60000 : Nat) ≤ 2000 * 2 ^ 5 := by norm_num
          _ ≤ 2000 * 2 ^ (n - 1) := Nat.mul_le_mul_left _ h2
      simpa [backoffWait, RECONNECT_BASE_MS, MAX_RECONNECT_WAIT_MS] using
        Nat.min_eq_right h3
  · have hmm : n - 1 + 1 = n := by omega
    simp [scheduleReconnectSteps, connectSteps, hmm]

/-- C8 witness at attempt 6. -/
theorem reconnect_backoff_formula_attempt6 :
    (1 ≤ 6 ∧ backoffWait 6 = min (2000 * 2 ^ (6 - 1)) 60000) ∧ backoffWait 6 = 60000 := by
  have h := reconnect_backoff_formula 6 (by norm_num)
  exact ⟨⟨by norm_num, h.1⟩, h.2.2.1⟩

/-- C9: the abort handler, in any session state, defuses both timers,
closes the socket, resolves the session promise with success (when it
was still pending), and never schedules a reconnect: the scheduled
flag is untouched and both `scheduleReconnect` and `connect` are
no-ops once the abort signal has fired. -/
theorem abort_terminates_cleanly (st : SessionState) (a : Nat) :
    (handleAbort st).helloTimer = false ∧
    (handleAbort st).heartbeatTimer = false ∧
    (handleAbort st).socketOpen = false ∧
    (handleAbort st).resolved = true ∧
    (handleAbort st).resolvedSuccess = (st.resolvedSuccess || !st.resolved) ∧
    (handleAbort st).reconnectScheduled = st.reconnectScheduled ∧
    scheduleReconnectSteps true a = [] ∧
    connectSteps true = [] ∧
    stepClose (handleAbort st) = handleAbort st := by
  unfold handleAbort stepClose cleanup scheduleReconnectSteps connectSteps
  by_cases h : st.resolved <;> simp [h]

/-- C7: a Reconnect (signal 5) frame resets the stored session id to
empty and the sequence number to 0, defuses both timers, closes the
socket, and (when the promise is still pending and the abort signal
has not fired) schedules a backoff reconnect; the reconnect sequence
waits the backoff and then re-fetches the gateway endpoint before
opening a socket. -/
theorem reconnect_frame_full_reset (botId : Option String) (st : SessionState)
    (sid : Option String) (ev : KookEventData) (osn : Option Int) (a : Nat) :
    (stepFrame botId st ⟨5, sid, ev, osn⟩).sn = 0 ∧
    (stepFrame botId st ⟨5, sid, ev, osn⟩).sessionId = "" ∧
    (stepFrame botId st ⟨5, sid, ev, osn⟩).socketOpen = false ∧
    (stepFrame botId st ⟨5, sid, ev, osn⟩).helloTimer = false ∧
    (stepFrame botId st ⟨5, sid, ev, osn⟩).heartbeatTimer = false ∧
    (stepFrame botId st ⟨5, sid, ev, osn⟩).reconnectScheduled =
      (if st.resolved then st.reconnectScheduled else !st.aborted) ∧
    scheduleReconnectSteps false a =
      [ConnStep.waitTick (backoffWait (a + 1)), ConnStep.fetchGateway,
        ConnStep.openSocket] ∧
    connectSteps false = [ConnStep.fetchGateway, ConnStep.openSocket] := by
  by_cases h : st.resolved <;>
    simp [stepFrame, cleanup, scheduleReconnectSteps, connectSteps, h]

/-- C5 counterexample: a Hello frame does not reset the reconnect
attempt counter — a session whose counter is 3 still has counter 3
after Hello is handled, contradicting the claim that the counter is
reset to zero on Hello (reaching Live). -/
theorem hello_no_attempt_reset_counterexample :
    (stepFrame none { initialSessionState with reconnectAttempt := 3 }
      sampleHelloFrame).reconnectAttempt = 3 ∧ (3 : Nat) ≠ 0 := by
  decide

/-- C5 (amended): when a Hello frame arrives, the session cancels the
hello timer, stores the frame's session id (keeping the old one when
absent), and starts the 30000 ms heartbeat ticker whose payload is a
Ping `{s: 2, sn}`; the reconnect attempt counter is untouched by
Hello — it is reset to zero by the socket `open` event, before the
session is live. -/
theorem hello_frame_transition (botId : Option String) (st : SessionState)
    (sid : Option String) (ev : KookEventData) (osn : Option Int) :
    stepFrame botId st ⟨1, sid, ev, osn⟩ =
      { st with helloTimer := false
                sessionId := sid.getD st.sessionId
                heartbeatTimer := true } ∧
    (stepFrame botId st ⟨1, sid, ev, osn⟩).reconnectAttempt = st.reconnectAttempt ∧
    (stepOpen st).reconnectAttempt = 0 ∧
    HEARTBEAT_INTERVAL_MS = 30000 ∧
    heartbeatPayload (stepFrame botId st ⟨1, sid, ev, osn⟩) = (2, st.sn) := by
  exact ⟨rfl, rfl, rfl, rfl, rfl⟩

/-- C4 counterexample: with the account-merged `groupPolicy` set to
`disabled` and a raw per-channel `groupPolicy: "open"` on channel
`chan1`, the code resolves `disabled` and rejects the event, while the
claimed chain would resolve `open`; the two resolutions differ. -/
theorem group_policy_no_channel_override_counterexample :
    specEffectiveGroupPolicy
      { groupPolicy := some "disabled"
        groups := some [("chan1", { rawGroupPolicy := some "open" })] }
      "chan1" (some "guild1") = "open" ∧
    effectiveGroupPolicy
      { groupPolicy := some "disabled"
        groups := some [("chan1", { rawGroupPolicy := some "open" })] } = "disabled" ∧
    handleKookMessage
      { groupPolicy := some "disabled"
        groups := some [("chan1", { rawGroupPolicy := some "open" })] }
      sampleEvent none [] 10 (fun _ _ b => b) 0 true =
      (HandleOutcome.droppedPolicy, []) ∧
    ("open" : String) ≠ "disabled" := by
  refine ⟨rfl, rfl, ?_, by decide⟩
  decide

/-- C4 (amended): the effective group policy is the account-merged
`groupPolicy` with global default `allowlist`; the per-channel
`groups` entries contribute no override (the resolution is invariant
under any change to `groups`), and in the account resolver the
account-specific value, when present, overrides the top-level one. -/
theorem group_policy_override_chain (kookCfg : KookConfig)
    (gs : Option (List (String × GroupEntry))) (top : Option String) :
    effectiveGroupPolicy kookCfg = kookCfg.groupPolicy.getD "allowlist" ∧
    effectiveGroupPolicy { kookCfg with groups := gs } = effectiveGroupPolicy kookCfg ∧
    effectiveGroupPolicy { groupPolicy := mergeGroupPolicy (some "open") top } = "open" ∧
    effectiveGroupPolicy { groupPolicy := mergeGroupPolicy none (some "disabled") } =
      "disabled" ∧
    effectiveGroupPolicy { groupPolicy := mergeGroupPolicy none none } = "allowlist" := by
  exact ⟨rfl, rfl, rfl, rfl, rfl⟩

/-! ### C1: sequence-number tracking -/

/-- The incoming sequence numbers of a frame list form a non-decreasing
chain starting at or above `cur` (frames without a sequence number are
skipped). -/
def eventSnChain : Int → List KookSignalFrame → Prop
  | _, [] => True
  | cur, f :: fs =>
    match f.sn with
    | some v => cur ≤ v ∧ eventSnChain v fs
    | none => eventSnChain cur fs

/-- Under a non-decreasing incoming chain, the stored sequence number
never decreases across a run of Event frames. -/
theorem runFrames_sn_mono (botId : Option String) (st : SessionState)
    (fs : List KookSignalFrame) (hall : ∀ f ∈ fs, f.s = 0)
    (hchain : eventSnChain st.sn fs) :
    st.sn ≤ (runFrames botId st fs).sn := by
  induction fs generalizing st with
  | nil => simp [runFrames]
  | cons f fs ih =>
    have hf : f.s = 0 := hall f (List.mem_cons_self f fs)
    have hall' : ∀ g ∈ fs, g.s = 0 := fun g hg => hall g (List.mem_cons_of_mem f hg)
    have hstep := stepFrame_event_sn botId st f hf
    have hrun : runFrames botId st (f :: fs) = runFrames botId (stepFrame botId st f) fs :=
      rfl
    rw [hrun]
    cases hv : f.sn with
    | none =>
      have hchain' : eventSnChain st.sn fs := by
        unfold eventSnChain at hchain
        rw [hv] at hchain
        exact hchain
      have hsn : (stepFrame botId st f).sn = st.sn := by rw [hstep, hv]; rfl
      have := ih (stepFrame botId st f) hall' (by rw [hsn]; exact hchain')
      rw [hsn] at this
      exact this
    | some v =>
      have hchain' : st.sn ≤ v ∧ eventSnChain v fs := by
        unfold eventSnChain at hchain
        rw [hv] at hchain
        exact hchain
      have hsn : (stepFrame botId st f).sn = v := by rw [hstep, hv]; rfl
      have := ih (stepFrame botId st f) hall' (by rw [hsn]; exact hchain'.2)
      rw [hsn] at this
      exact le_trans hchain'.1 this

/-- C1 counterexample: the session stores whatever sequence number the
server sends — after an Event frame with sn 5 followed by one with
sn 3, the stored `lastSequence` drops from 5 to 3, so it is not
monotonic non-decreasing across arbitrary Event frames. -/
theorem lastSequence_not_monotone_counterexample :
    (stepFrame none initialSessionState eventFrameSn5).sn = 5 ∧
    (stepFrame none (stepFrame none initialSessionState eventFrameSn5)
      eventFrameSn3).sn = 3 ∧
    ¬((stepFrame none initialSessionState eventFrameSn5).sn ≤
      (stepFrame none (stepFrame none initialSessionState eventFrameSn5)
        eventFrameSn3).sn) := by
  refine ⟨rfl, rfl, ?_⟩
  decide

/-- C1 (amended): across any run of Event (s=0) frames whose present
sequence numbers arrive in non-decreasing order, the stored
`lastSequence` is monotonic non-decreasing (it always holds the last
received sequence number, keeping its value when a frame carries
none); and a server-initiated Reconnect (s=5) frame resets it to 0
together with the session id. -/
theorem lastSequence_monotone_until_reconnect (botId : Option String)
    (st : SessionState) (fs : List KookSignalFrame)
    (hall : ∀ f ∈ fs, f.s = 0) (hchain : eventSnChain st.sn fs) :
    st.sn ≤ (runFrames botId st fs).sn ∧
    (∀ (f : KookSignalFrame), f.s = 0 →
      (stepFrame botId st f).sn = f.sn.getD st.sn) ∧
    (∀ (sid : Option String) (ev : KookEventData) (osn : Option Int),
      (stepFrame botId st ⟨5, sid, ev, osn⟩).sn = 0 ∧
      (stepFrame botId st ⟨5, sid, ev, osn⟩).sessionId = "") := by
  refine ⟨runFrames_sn_mono botId st fs hall hchain, ?_, ?_⟩
  · exact fun f hf => stepFrame_event_sn botId st f hf
  · intro sid ev osn
    by_cases h : st.resolved <;> simp [stepFrame, cleanup, h]

/-- C1 witness: the monotonicity theorem applied to the concrete run
`[sn 3, sn 5]` from the fresh session state. -/
theorem lastSequence_monotone_witness :
    initialSessionState.sn ≤
      (runFrames none initialSessionState [eventFrameSn3, eventFrameSn5]).sn := by
  have h := lastSequence_monotone_until_reconnect none initialSessionState
    [eventFrameSn3, eventFrameSn5]
    (by intro f hf; fin_cases hf <;> rfl)
    (by unfold eventSnChain; exact ⟨by decide, by unfold eventSnChain; exact ⟨by decide, trivial⟩⟩)
  exact h.1

/-! ### C3: admission pipeline -/

/-- C3: with the session's bot id resolved (a non-empty string), a
decoded event is forwarded to the message handler iff its author is
not the bot, its type is not 255, and its type is one of 1, 9, 10;
and an event authored by the bot never changes the dispatch count. -/
theorem admission_pipeline_iff (b : String) (e : KookEventData) (hb : b ≠ "") :
    (admitEvent (some b) e = true ↔
      (e.author_id ≠ b ∧ e.type ≠ 255 ∧ (e.type = 1 ∨ e.type = 9 ∨ e.type = 10))) ∧
    (∀ (st : SessionState) (sid : Option String) (osn : Option Int),
      e.author_id = b →
      (stepFrame (some b) st ⟨0, sid, e, osn⟩).dispatchCount = st.dispatchCount) := by
  have hbt : (b == "") = false := beq_eq_false_iff_ne.mpr hb
  constructor
  · simp only [admitEvent, jsTruthy, hbt, Bool.not_false, Bool.true_and, Option.getD_some]
    by_cases h1 : e.author_id = b
    · simp [h1]
    · have h1' : (e.author_id == b) = false := beq_eq_false_iff_ne.mpr h1
      rw [h1']
      simp only [Bool.false_eq_true, if_false]
      by_cases h2 : e.type = 255
      · simp [h2]
      · have h2' : (e.type == 255) = false := beq_eq_false_iff_ne.mpr h2
        rw [h2']
        simp only [Bool.false_eq_true, if_false]
        by_cases h3 : e.type = 1
        · simp [h1, h2, h3, bne]
        · by_cases h4 : e.type = 9
          · simp [h1, h2, h4, bne]
          · by_cases h5 : e.type = 10
            · simp [h1, h2, h5, bne]
            · simp [h1, h2, h3, h4, h5, bne,
                beq_eq_false_iff_ne.mpr h3, beq_eq_false_iff_ne.mpr h4,
                beq_eq_false_iff_ne.mpr h5]
  · intro st sid osn hauthor
    unfold stepFrame
    simp only [show ((0 : Int) == 1) = false from rfl,
      show ((0 : Int) == 0) = true from rfl, Bool.false_eq_true, if_false, if_true]
    have : admitEvent (some b) e = false := by
      simp only [admitEvent, jsTruthy, hbt, Bool.not_false, Bool.true_and,
        Option.getD_some, hauthor]
      simp
    rw [this]
    simp

/-- C3 witness: a non-self KMarkdown event (type 9) from another user
is admitted, and a self-authored event leaves the dispatch count
unchanged. -/
theorem admission_pipeline_iff_witness :
    admitEvent (some "bot1") sampleEvent = true ∧
    (stepFrame (some "bot1") initialSessionState
      ⟨0, none, { sampleEvent with author_id := "bot1" }, some 7⟩).dispatchCount =
      initialSessionState.dispatchCount := by
  constructor
  · exact (admission_pipeline_iff "bot1" sampleEvent (by decide)).1.mpr (by decide)
  · exact (admission_pipeline_iff "bot1" { sampleEvent with author_id := "bot1" }
      (by decide)).2 initialSessionState none (some 7) rfl

/-! ### C2: mention gating and the pending history buffer -/

/-- Reading back the key just written. -/
theorem histGet_histSet (m : HistMap) (k : String) (v : List HistoryEntry) :
    histGet (histSet m k v) k = v := by
  unfold histGet histSet
  simp [List.lookup]

/-- A positive capacity keeps the newest entry: the recorded entry is
the last element of the bounded buffer. -/
theorem takeLast_append_getLast (n : Nat) (hn : 0 < n) (l : List HistoryEntry)
    (x : HistoryEntry) : (takeLast n (l ++ [x])).getLast? = some x := by
  unfold takeLast
  have hlen : (l ++ [x]).length = l.length + 1 := by simp
  rw [hlen]
  have hk : l.length + 1 - n ≤ l.length := by omega
  rw [List.drop_append_of_le_length hk]
  exact List.getLast?_concat _

/-- C2: for a group message that passed the policy gate in a channel
whose mention requirement resolves true, with history enabled
(positive limit): an unmentioning message is recorded to the channel's
bounded buffer (newest entry last) and not dispatched; a mentioning
message is dispatched with the channel's buffered entries formatted
and prepended ahead of its own envelope-formatted body, after which
the buffer is cleared; and a dispatch that throws leaves the history
map exactly as it was. -/
theorem mention_gate_buffering (kookCfg : KookConfig) (e : KookEventData)
    (botId : Option String) (m : HistMap) (limit : Nat)
    (fmt : String → Nat → String → String) (now : Nat) (ok : Bool)
    (hg : e.channel_type = ChannelType.GROUP)
    (hallow : isGroupAllowed (effectiveGroupPolicy kookCfg)
      (kookCfg.groupAllowFrom.getD []) (e.guild_id.getD "") e.target_id = true)
    (hen : ¬(groupConfigFor kookCfg e.target_id e.guild_id).bind GroupEntry.enabled =
      some false)
    (hreq : effectiveRequireMention kookCfg
      (groupConfigFor kookCfg e.target_id e.guild_id) = true)
    (hch : e.target_id ≠ "")
    (hlim : 0 < limit) :
    (checkBotMentioned e botId = false →
      handleKookMessage kookCfg e botId m limit fmt now ok =
        (HandleOutcome.recorded,
          recordPendingHistoryEntryIfEnabled m e.target_id limit
            { sender := e.author_id
              body := (e.author_username.getD e.author_id) ++ ": " ++
                stripBotMention (extractContent e) botId
              timestamp := now
              messageId := e.msg_id }) ∧
      (histGet (handleKookMessage kookCfg e botId m limit fmt now ok).2
        e.target_id).getLast? = some
          { sender := e.author_id
            body := (e.author_username.getD e.author_id) ++ ": " ++
              stripBotMention (extractContent e) botId
            timestamp := now
            messageId := e.msg_id }) ∧
    (checkBotMentioned e botId = true → ok = true →
      handleKookMessage kookCfg e botId m limit fmt now ok =
        (HandleOutcome.dispatched
          (buildPendingHistoryContextFromMap m e.target_id limit
            (historyEntryFormatter fmt e.target_id)
            (dispatchCurrentBody e botId fmt now)),
          clearHistoryEntriesIfEnabled m e.target_id limit) ∧
      histGet (clearHistoryEntriesIfEnabled m e.target_id limit) e.target_id = []) ∧
    (checkBotMentioned e botId = true → ok = false →
      handleKookMessage kookCfg e botId m limit fmt now ok =
        (HandleOutcome.dispatchFailed, m)) := by
  have hen' : ((groupConfigFor kookCfg e.target_id e.guild_id).bind GroupEntry.enabled ==
      some false) = false := beq_eq_false_iff_ne.mpr hen
  have hch' : (e.target_id != "") = true := bne_iff_ne.mpr hch
  refine ⟨?_, ?_, ?_⟩
  · intro hm
    have houtcome : handleKookMessage kookCfg e botId m limit fmt now ok =
        (HandleOutcome.recorded,
          recordPendingHistoryEntryIfEnabled m e.target_id limit
            { sender := e.author_id
              body := (e.author_username.getD e.author_id) ++ ": " ++
                stripBotMention (extractContent e) botId
              timestamp := now
              messageId := e.msg_id }) := by
      unfold handleKookMessage
      simp [hg, hallow, hen', hreq, hm]
    refine ⟨houtcome, ?_⟩
    rw [houtcome]
    show (histGet (recordPendingHistoryEntryIfEnabled m e.target_id limit _)
      e.target_id).getLast? = _
    unfold recordPendingHistoryEntryIfEnabled
    rw [histGet_histSet]
    exact takeLast_append_getLast limit hlim _ _
  · intro hm hok
    constructor
    · unfold handleKookMessage performDispatch
      simp [hg, hallow, hen', hreq, hm, hok, hch']
    · unfold clearHistoryEntriesIfEnabled
      rw [histGet_histSet]
  · intro hm hok
    unfold handleKookMessage performDispatch
    simp [hg, hallow, hen', hreq, hm, hok, hch']

/-- C2 witness: concrete open-policy channel, unmentioning message is
recorded; with a prior buffered entry, a mentioning message is
dispatched with the buffer prepended and the buffer is cleared; a
failing dispatch leaves the map unchanged. -/
theorem mention_gate_buffering_witness :
    (handleKookMessage { groupPolicy := some "open" } sampleEvent (some "bot1")
        [] 10 (fun f _ b => f ++ "|" ++ b) 0 true).1 = HandleOutcome.recorded ∧
    (handleKookMessage { groupPolicy := some "open" }
        { sampleEvent with mention := ["bot1"] } (some "bot1")
        [] 10 (fun f _ b => f ++ "|" ++ b) 0 false) =
      (HandleOutcome.dispatchFailed, []) := by
  constructor
  · have h := (mention_gate_buffering { groupPolicy := some "open" } sampleEvent
      (some "bot1") [] 10 (fun f _ b => f ++ "|" ++ b) 0 true
      rfl (by decide) (by decide) (by decide) (by decide) (by decide)).1 (by decide)
    rw [h.1]
  · exact (mention_gate_buffering { groupPolicy := some "open" }
      { sampleEvent with mention := ["bot1"] } (some "bot1")
      [] 10 (fun f _ b => f ++ "|" ++ b) 0 false
      rfl (by decide) (by decide) (by decide) (by decide) (by decide)).2.2 (by decide) rfl

/-! ### C10: behaviour with an unresolved bot id -/

/-- C10 counterexample: with an undefined bot id and the default
config (policy `allowlist`, empty allow-list), the mention requirement
resolves true, yet a group message is dropped by the policy gate —
nothing is recorded to the (empty, unchanged) buffer — contradicting
the claim that every group message is recorded. -/
theorem undefined_botid_not_always_recorded_counterexample :
    effectiveRequireMention {} (groupConfigFor {} "chan1" (some "guild1")) = true ∧
    checkBotMentioned sampleEvent none = false ∧
    handleKookMessage {} sampleEvent none [] 10 (fun _ _ b => b) 0 true =
      (HandleOutcome.droppedPolicy, []) ∧
    HandleOutcome.droppedPolicy ≠ HandleOutcome.recorded := by
  refine ⟨rfl, rfl, by decide, by decide⟩

/-- C10 (amended): when the self-identity probe fails — a thrown
request or a non-zero API status — the resolved bot id is `undefined`
and the session still starts with it; mention detection then returns
false for every event, so in a group channel whose mention requirement
resolves true no message is ever dispatched (nor reaches the fallible
dispatch path), and a message is recorded to the pending history
buffer exactly when it passes the group policy gate and the channel is
not disabled. -/
theorem undefined_botid_observe_only (kookCfg : KookConfig) (e : KookEventData)
    (m : HistMap) (limit : Nat) (fmt : String → Nat → String → String)
    (now : Nat) (ok : Bool)
    (hg : e.channel_type = ChannelType.GROUP)
    (hreq : effectiveRequireMention kookCfg
      (groupConfigFor kookCfg e.target_id e.guild_id) = true) :
    (∀ msg : String, fetchBotId (Except.error msg) = none) ∧
    (∀ r : KookApiUserResponse, r.code ≠ 0 → fetchBotId (Except.ok r) = none) ∧
    checkBotMentioned e none = false ∧
    (∀ body, (handleKookMessage kookCfg e none m limit fmt now ok).1 ≠
      HandleOutcome.dispatched body) ∧
    (handleKookMessage kookCfg e none m limit fmt now ok).1 ≠
      HandleOutcome.dispatchFailed ∧
    ((handleKookMessage kookCfg e none m limit fmt now ok).1 =
        HandleOutcome.recorded ↔
      (isGroupAllowed (effectiveGroupPolicy kookCfg) (kookCfg.groupAllowFrom.getD [])
          (e.guild_id.getD "") e.target_id = true ∧
        ¬(groupConfigFor kookCfg e.target_id e.guild_id).bind GroupEntry.enabled =
          some false)) := by
  have hm : checkBotMentioned e none = false := rfl
  have hcases : ∀ P : Prop,
      ((handleKookMessage kookCfg e none m limit fmt now ok).1 =
        HandleOutcome.droppedPolicy → P) →
      ((handleKookMessage kookCfg e none m limit fmt now ok).1 =
        HandleOutcome.droppedDisabled → P) →
      ((handleKookMessage kookCfg e none m limit fmt now ok).1 =
        HandleOutcome.recorded → P) → P := by
    intro P hdp hdd hrec
    by_cases hA : isGroupAllowed (effectiveGroupPolicy kookCfg)
        (kookCfg.groupAllowFrom.getD []) (e.guild_id.getD "") e.target_id = true
    · by_cases hB : (groupConfigFor kookCfg e.target_id e.guild_id).bind
          GroupEntry.enabled = some false
      · refine hdd ?_
        unfold handleKookMessage
        simp [hg, hA, hB]
      · refine hrec ?_
        have hB' : ((groupConfigFor kookCfg e.target_id e.guild_id).bind
            GroupEntry.enabled == some false) = false := beq_eq_false_iff_ne.mpr hB
        unfold handleKookMessage
        simp [hg, hA, hB', hreq, hm]
    · refine hdp ?_
      have hA' : isGroupAllowed (effectiveGroupPolicy kookCfg)
          (kookCfg.groupAllowFrom.getD []) (e.guild_id.getD "") e.target_id = false :=
        Bool.not_eq_true _ ▸ Bool.of_not_eq_true hA
      unfold handleKookMessage
      simp [hg, hA']
  refine ⟨fun _ => rfl, ?_, hm, ?_, ?_, ?_, ?_⟩
  · intro r hr
    have hr' : (r.code == 0) = false := beq_eq_false_iff_ne.mpr hr
    simp [fetchBotId, hr']
  · intro body
    refine hcases _ (fun h => ?_) (fun h => ?_) (fun h => ?_) <;> simp [h]
  · refine hcases _ (fun h => ?_) (fun h => ?_) (fun h => ?_) <;> simp [h]
  · -- recorded implies the gate passed and the channel was enabled
    intro hout
    by_cases hA : isGroupAllowed (effectiveGroupPolicy kookCfg)
        (kookCfg.groupAllowFrom.getD []) (e.guild_id.getD "") e.target_id = true
    · refine ⟨hA, ?_⟩
      intro hB
      have hdd : (handleKookMessage kookCfg e none m limit fmt now ok).1 =
          HandleOutcome.droppedDisabled := by
        unfold handleKookMessage
        simp [hg, hA, hB]
      rw [hout] at hdd
      exact absurd hdd (by simp)
    · have hA' : isGroupAllowed (effectiveGroupPolicy kookCfg)
          (kookCfg.groupAllowFrom.getD []) (e.guild_id.getD "") e.target_id = false :=
        Bool.not_eq_true _ ▸ Bool.of_not_eq_true hA
      have hdp : (handleKookMessage kookCfg e none m limit fmt now ok).1 =
          HandleOutcome.droppedPolicy := by
        unfold handleKookMessage
        simp [hg, hA']
      rw [hout] at hdp
      exact absurd hdp (by simp)
  · -- the gate passing and the channel enabled imply recording
    rintro ⟨hallow, hen⟩
    have hen' : ((groupConfigFor kookCfg e.target_id e.guild_id).bind
        GroupEntry.enabled == some false) = false := beq_eq_false_iff_ne.mpr hen
    unfold handleKookMessage
    simp [hg, hallow, hen', hreq, hm]

/-- C10 witness: a non-zero probe status resolves the bot id to none,
and in a concrete open-policy group channel with `requireMention`
defaulting to true the unmentioning message is recorded. -/
theorem undefined_botid_observe_only_witness :
    fetchBotId (Except.ok ⟨40100, "bot9"⟩) = none ∧
    (handleKookMessage { groupPolicy := some "open" } sampleEvent none
      [] 10 (fun _ _ b => b) 0 true).1 = HandleOutcome.recorded := by
  have h := undefined_botid_observe_only { groupPolicy := some "open" } sampleEvent
    [] 10 (fun _ _ b => b) 0 true rfl (by decide)
  exact ⟨h.2.1 ⟨40100, "bot9"⟩ (by decide),
    h.2.2.2.2.2.mpr ⟨by decide, by decide⟩⟩

/-! ### C6: the group policy gate -/

/-- C6: `disabled` rejects every group event regardless of the
allow-list contents, `open` accepts every group event, and `allowlist`
accepts exactly when the guild id or the channel id string-equals some
allow-list entry; at the handler level, an effective `disabled` policy
drops the group event with the history map untouched. -/
theorem group_policy_decision (af : List AllowEntry) (g c : String)
    (kookCfg : KookConfig) (e : KookEventData) (botId : Option String)
    (m : HistMap) (limit : Nat) (fmt : String → Nat → String → String)
    (now : Nat) (ok : Bool) :
    isGroupAllowed "disabled" af g c = false ∧
    isGroupAllowed "open" af g c = true ∧
    (isGroupAllowed "allowlist" af g c = true ↔
      ∃ entry ∈ af, entryToString entry = g ∨ entryToString entry = c) ∧
    (e.channel_type = ChannelType.GROUP → effectiveGroupPolicy kookCfg = "disabled" →
      handleKookMessage kookCfg e botId m limit fmt now ok =
        (HandleOutcome.droppedPolicy, m)) := by
  refine ⟨rfl, rfl, ?_, ?_⟩
  · show (af.any fun entry =>
      entryToString entry == g || entryToString entry == c) = true ↔ _
    simp [List.any_eq_true]
  · intro hg hp
    have hfalse : isGroupAllowed (effectiveGroupPolicy kookCfg)
        (kookCfg.groupAllowFrom.getD []) (e.guild_id.getD "") e.target_id = false := by
      rw [hp]
      rfl
    unfold handleKookMessage
    simp [hg, hfalse]

/-- C6 witness: a concrete `disabled` account config drops a concrete
group event, leaving the (empty) history map unchanged. -/
theorem group_policy_decision_witness :
    handleKookMessage { groupPolicy := some "disabled" } sampleEvent none
      [] 10 (fun _ _ b => b) 0 true = (HandleOutcome.droppedPolicy, []) := by
  exact (group_policy_decision [] "g" "c" { groupPolicy := some "disabled" }
    sampleEvent none [] 10 (fun _ _ b => b) 0 true).2.2.2 rfl rfl

end Kook
